import Mathlib

/-!
Verification of the GVM host agent (`src/gvm-agent`) against its
natural-language specification.

The development shallowly embeds the C sources:
* `config.c`   — INI-style configuration parsing and validation,
* `agent.c`    — system-info collection and the main loop `agent_run`,
* `heartbeat` (in `job_processor.c`'s compilation group) — heartbeat with retry,
* `job_processor.c` — job polling, execution and result submission,
* `nasl_executor.c` — scan-result construction.

Machine `int`s are modelled as `Int` (all values involved are small, far from
overflow), C strings as `String` / `List Char`, NULL pointers as `Option`,
and the effectful environment (HTTP exchanges, `rand()`) as explicit inputs.
-/

namespace GvmAgent

/-! ### Error codes (agent.h) -/

def ERR_SUCCESS : Nat := 0
def ERR_CONFIG_MISSING : Nat := 1001
def ERR_CONFIG_INVALID : Nat := 1002
def ERR_NETWORK_UNREACHABLE : Nat := 2001
def ERR_AUTH_FAILED : Nat := 2002
def ERR_SERVER_ERROR : Nat := 2003
def ERR_INVALID_RESPONSE : Nat := 2004
def ERR_JOB_EXECUTION_FAILED : Nat := 3002

/-! ### Configuration (config.c)

`agent_config_t`: string fields are `Option String` (NULL = `none`);
`calloc` zeroes them, then `config_load` installs the documented defaults for
the numeric fields and `log_level` before parsing. -/

structure AgentConfig where
  agent_id : Option String
  hostname : Option String
  controller_url : Option String
  auth_token : Option String
  heartbeat_interval_seconds : Int
  retry_attempts : Int
  retry_delay_seconds : Int
  max_jitter_seconds : Int
  log_level : String
deriving DecidableEq, Repr

/-- The state of `config` right after `calloc` + the default assignments in
`config_load` (config.c lines 60-71). -/
def defaultConfig : AgentConfig :=
  { agent_id := none
    hostname := none
    controller_url := none
    auth_token := none
    heartbeat_interval_seconds := 600
    retry_attempts := 5
    retry_delay_seconds := 60
    max_jitter_seconds := 30
    log_level := "info" }

/-- Leading trim of `trim_whitespace` (config.c line 29): skip spaces/tabs. -/
def trimLeading : List Char → List Char
  | [] => []
  | c :: cs => if c = ' ' ∨ c = '\t' then trimLeading cs else c :: cs

/-- Trailing trim of `trim_whitespace` (config.c lines 36-39), operating on the
reversed string: drop whitespace from the end but never past the first
character (the C loop condition is `end > str`). -/
def dropRevTrail : List Char → List Char
  | [] => []
  | [c] => [c]
  | c :: cs =>
    if c = ' ' ∨ c = '\t' ∨ c = '\n' ∨ c = '\r' then dropRevTrail cs else c :: cs

/-- `trim_whitespace` (config.c lines 25-42). -/
def trim_whitespace (l : List Char) : List Char :=
  let s := trimLeading l
  if s = [] then [] else (dropRevTrail s.reverse).reverse

/-- `atoi` digit loop: consume decimal digits, stop at the first non-digit. -/
def atoiDigits : List Char → Int → Int
  | [], acc => acc
  | c :: cs, acc =>
    if c.isDigit then atoiDigits cs (acc * 10 + ((c.toNat : Int) - 48)) else acc

/-- C `atoi`: skip leading whitespace, optional sign, then digits (0 if none). -/
def atoi (l : List Char) : Int :=
  let s := l.dropWhile fun c =>
    c = ' ' ∨ c = '\t' ∨ c = '\n' ∨ c = '\x0b' ∨ c = '\x0c' ∨ c = '\r'
  match s with
  | '-' :: cs => -(atoiDigits cs 0)
  | '+' :: cs => atoiDigits cs 0
  | cs => atoiDigits cs 0

/-- Split a character list at the first occurrence of `sep` (C `strchr` + the
`*equals = '\0'` split): `none` when `sep` does not occur. -/
def splitAtFirst (sep : Char) : List Char → Option (List Char × List Char)
  | [] => none
  | c :: cs =>
    if c = sep then some ([], cs)
    else match splitAtFirst sep cs with
      | none => none
      | some (l, r) => some (c :: l, r)

/-- Quote stripping in `config_load` (config.c lines 105-111): if the value
starts with `"`, skip it and truncate at the next `"` when there is one. -/
def stripQuotes (v : List Char) : List Char :=
  match v with
  | '"' :: rest =>
    match splitAtFirst '"' rest with
    | some (inner, _) => inner
    | none => rest
  | _ => v

/-- The key/value dispatch of `config_load` (config.c lines 113-145): a
recognized (section, key) pair updates the field, anything else falls through
all the `strcmp` chains and leaves the configuration untouched. -/
def config_apply_kv (sec key value : String) (cfg : AgentConfig) : AgentConfig :=
  if sec = "agent" then
    if key = "agent_id" then { cfg with agent_id := some value }
    else if key = "hostname" then { cfg with hostname := some value }
    else cfg
  else if sec = "controller" then
    if key = "url" then { cfg with controller_url := some value }
    else if key = "auth_token" then { cfg with auth_token := some value }
    else cfg
  else if sec = "heartbeat" then
    if key = "interval_in_seconds" then
      { cfg with heartbeat_interval_seconds := atoi value.toList }
    else cfg
  else if sec = "retry" then
    if key = "attempts" then { cfg with retry_attempts := atoi value.toList }
    else if key = "delay_in_seconds" then
      { cfg with retry_delay_seconds := atoi value.toList }
    else if key = "max_jitter_in_seconds" then
      { cfg with max_jitter_seconds := atoi value.toList }
    else cfg
  else if sec = "logging" then
    if key = "level" then { cfg with log_level := value }
    else cfg
  else cfg

/-- The `key=value` handling of the line loop (config.c lines 94-145): split at
the first `=` (no `=` means the line is skipped), trim both sides, strip quotes
from the value, dispatch. -/
def config_parse_kv (sec : String) (cfg : AgentConfig) (trimmed : List Char) :
    String × AgentConfig :=
  match splitAtFirst '=' trimmed with
  | none => (sec, cfg)
  | some (lhs, rhs) =>
    let key := trim_whitespace lhs
    let value := stripQuotes (trim_whitespace rhs)
    (sec, config_apply_kv sec (String.mk key) (String.mk value) cfg)

/-- One iteration of the `fgets` loop of `config_load` (config.c lines 76-146).
The state is the current section (`current_section`) and the configuration
being filled in.  A `[` line without `]` falls through to key=value parsing,
exactly as in the C code. -/
def config_load_line (st : String × AgentConfig) (line : List Char) :
    String × AgentConfig :=
  let (sec, cfg) := st
  let trimmed := trim_whitespace line
  match trimmed with
  | [] => (sec, cfg)
  | c :: rest =>
    if c = '#' ∨ c = ';' then (sec, cfg)
    else if c = '[' then
      -- section header: text between '[' and the first ']', strncpy-truncated
      match splitAtFirst ']' rest with
      | some (name, _) => (String.mk (name.take 63), cfg)
      | none => config_parse_kv sec cfg trimmed
    else config_parse_kv sec cfg trimmed

/-- The parsing phase of `config_load`: fold the line loop over the file's
lines, starting from the defaults and the empty section. -/
def config_parse (lines : List (List Char)) : AgentConfig :=
  (lines.foldl config_load_line ("", defaultConfig)).2

/-- `config_validate` (config.c lines 162-193), returning the C error code. -/
def config_validate (cfg : AgentConfig) : Nat :=
  if cfg.controller_url = none ∨ cfg.controller_url = some "" then
    ERR_CONFIG_INVALID
  else if cfg.auth_token = none ∨ cfg.auth_token = some "" then
    ERR_CONFIG_INVALID
  else if cfg.heartbeat_interval_seconds < 60 then
    ERR_CONFIG_INVALID
  else ERR_SUCCESS

/-- `config_load` (config.c lines 44-160) on a file that was successfully
opened and read as a list of lines: parse, then validate; on validation
failure the configuration is freed and only the error code escapes. -/
def config_load (lines : List (List Char)) : Except Nat AgentConfig :=
  let cfg := config_parse lines
  let v := config_validate cfg
  if v ≠ ERR_SUCCESS then .error v else .ok cfg

/-! ### Scan results (nasl_executor.c)

C `float` severities are modelled as `ℚ`: every severity the code handles is a
small decimal (0.0 … 10.0) represented exactly in both. -/

structure ScanResult where
  nvt_oid : String
  nvt_name : String
  severity : ℚ
  cvss_base_vector : String
  host : String
  port : String
  threat : String
  description : String
  qod : Int
deriving DecidableEq, Repr

/-- `create_scan_result` (nasl_executor.c lines 36-69). -/
def create_scan_result (oid name : String) (severity : ℚ)
    (host port description : String) : ScanResult :=
  { nvt_oid := oid
    nvt_name := name
    severity := severity
    cvss_base_vector := "AV:N/AC:L/Au:N/C:N/I:N/A:N"
    host := host
    port := port
    threat :=
      if 7 ≤ severity then "High"
      else if 4 ≤ severity then "Medium"
      else "Low"
    description := description
    qod := 70 }

/-! ### System information (agent.c, `agent_get_system_info`)

The POSIX branch walks `getifaddrs`; each interface entry is modelled as
`Option String`: `none` for a NULL `ifa_addr` or a non-`AF_INET` family,
`some ip` for an IPv4 address rendered by `inet_ntop`. -/

/-- The `getifaddrs` loop (agent.c lines 96-109): scan entries while fewer
than 16 addresses are collected, keep IPv4 addresses other than `127.0.0.1`.
`room` is `16 - ip_count`, the space left in the array. -/
def collect_ips_go : List (Option String) → Nat → List String
  | _, 0 => []
  | [], _ => []
  | none :: rest, room + 1 => collect_ips_go rest (room + 1)
  | some ip :: rest, room + 1 =>
    if ip = "127.0.0.1" then collect_ips_go rest (room + 1)
    else ip :: collect_ips_go rest room

/-- The IP-address part of `agent_get_system_info` (agent.c lines 68-117):
collect up to 16 non-loopback IPv4 addresses; if none was found, fall back to
the single entry `127.0.0.1`. -/
def agent_collect_ips (entries : List (Option String)) : List String :=
  let l := collect_ips_go entries 16
  if l = [] then ["127.0.0.1"] else l

/-! ### Job polling (job_processor.c, `job_poll`)

The HTTP exchange inside `job_poll` is an input: either the `curl` transfer
failed, or it produced a status code and a body. -/

inductive CurlResult where
  | failure
  | ok (status : Int) (body : String)
deriving DecidableEq, Repr

structure JobList where
  job_count : Int
  jobs : Option (List String)
deriving DecidableEq, Repr

/-- `strstr(hay, needle) != NULL`: `needle` occurs as a contiguous substring
of `hay`. -/
def listPrefixEq : List Char → List Char → Bool
  | [], _ => true
  | _ :: _, [] => false
  | a :: as, b :: bs => a = b && listPrefixEq as bs

def strstrB (needle : List Char) : List Char → Bool
  | [] => listPrefixEq needle []
  | c :: t => listPrefixEq needle (c :: t) || strstrB needle t

/-- `job_poll` (job_processor.c lines 38-140), given the outcome of its HTTP
exchange.  `jobs = none` models the NULL `jobs` pointer of `job_list_t`; both
200-paths (empty `jobs` array or anything else) build the same empty list,
because the Phase-2 code never parses job entries. -/
def job_poll (res : CurlResult) : Except Nat JobList :=
  match res with
  | .failure => .error ERR_NETWORK_UNREACHABLE
  | .ok status body =>
    if status = 401 then .error ERR_AUTH_FAILED
    else if status ≠ 200 then .error ERR_SERVER_ERROR
    else if strstrB "\"jobs\": []".toList body.toList
         ∨ strstrB "\"jobs\":[]".toList body.toList then
      .ok { job_count := 0, jobs := none }
    else
      .ok { job_count := 0, jobs := none }

/-! ### The main loop (agent.c, `agent_run`)

One iteration of the `while (1)` loop is a function of the agent context and
of the environment's responses; its observable effects are a trace of
`Action`s.  The constructors `fetchConfig` and `finalizeJob` name the
`GET /api/v1/agents/config` and `POST /api/v1/agents/jobs/{id}/complete`
requests the specification mentions, so their absence from a trace can be
stated. -/

inductive Action where
  | sleep (seconds : Int)
  | sendHeartbeat
  | pollJobs
  | executeJob (jobId : String)
  | submitResults (jobId : String)
  | finalizeJob (jobId : String)
  | fetchConfig
deriving DecidableEq, Repr

/-- `heartbeat_response_t` (heartbeat.h), as filled in by `heartbeat_send`. -/
structure HeartbeatResponse where
  accepted : Bool
  config_updated : Bool
  next_heartbeat_in_seconds : Int
  authorized : Bool
deriving DecidableEq, Repr

/-- Agent states (agent.h `agent_state_t`), the ones `agent_run` touches. -/
inductive AgentState where
  | initializing
  | registering
  | unauthorized
  | active
deriving DecidableEq, Repr

/-- The part of `agent_context_t` that `agent_run` reads and writes. -/
structure AgentCtx where
  config : AgentConfig
  state : AgentState
  authorized : Bool
deriving DecidableEq, Repr

/-- The environment of one loop iteration: the outcome of
`heartbeat_send_with_retry` and of the HTTP exchange inside `job_poll`. -/
structure LoopEnv where
  hb : Except Nat HeartbeatResponse
  jobCurl : CurlResult
deriving Repr

/-- The per-job body of the job loop (agent.c lines 271-286):
`job_execute` — which, given non-NULL arguments, always returns `ERR_SUCCESS`
and a results JSON — followed by `job_submit_results`. -/
def process_jobs (jobs : List String) : List Action :=
  jobs.flatMap fun j => [Action.executeJob j, Action.submitResults j]

/-- One iteration of `agent_run`'s main loop (agent.c lines 231-296).
`heartbeat_send` stores the response's `authorized` flag into the context
before `agent_run` inspects it. -/
def agent_run_iteration (ctx : AgentCtx) (env : LoopEnv) :
    AgentCtx × List Action :=
  let interval := ctx.config.heartbeat_interval_seconds
  match env.hb with
  | .error _ => (ctx, [Action.sendHeartbeat, Action.sleep interval])
  | .ok r =>
    let ctx := { ctx with authorized := r.authorized }
    if ¬ ctx.authorized then
      ({ ctx with state := .unauthorized },
       [Action.sendHeartbeat, Action.sleep interval])
    else
      let ctx := { ctx with state := .active }
      match job_poll env.jobCurl with
      | .error _ =>
        (ctx, [Action.sendHeartbeat, Action.pollJobs, Action.sleep interval])
      | .ok jobs =>
        let jacts :=
          if 0 < jobs.job_count then process_jobs (jobs.jobs.getD []) else []
        (ctx, [Action.sendHeartbeat, Action.pollJobs] ++ jacts
              ++ [Action.sleep interval])

/-! ### Heartbeat with retry (job_processor.c, `heartbeat_send_with_retry`)

`outcomes n` is the error code `heartbeat_send` returns at attempt `n`
(1-indexed); `rnd n` is the value of `rand()` at attempt `n`. -/

/-- `utils_get_random_jitter_ms` (utils.c lines 160-166): 0 when the bound is
non-positive, otherwise `rand() % max_jitter_ms`. -/
def jitter_ms_of (maxJitterMs : Int) (r : Nat) : Int :=
  if maxJitterMs ≤ 0 then 0 else (r : Int) % maxJitterMs

/-- The sleeps between a failed attempt and the next one (job_processor.c
lines 476-489): exponential backoff `base * 2^(attempt-1)`, then the jitter
(in whole seconds) when it is positive. -/
def backoff_actions (base maxJitterMs : Int) (r : Nat) (attempt : Nat) :
    List Action :=
  let jms := jitter_ms_of maxJitterMs r
  [Action.sleep (base * 2 ^ (attempt - 1))]
    ++ (if 0 < jms then [Action.sleep (jms / 1000)] else [])

/-- The attempt loop of `heartbeat_send_with_retry` (job_processor.c lines
461-490).  `fuel = max_attempts - attempt + 1` counts the attempts still
allowed; `fuel = 0` is the loop exit, returning `ERR_NETWORK_UNREACHABLE`. -/
def hb_retry_go (base maxJitterMs : Int) (outcomes rnd : Nat → Nat) :
    Nat → Nat → Nat × List Action
  | _, 0 => (ERR_NETWORK_UNREACHABLE, [])
  | attempt, fuel + 1 =>
    let res := outcomes attempt
    if res = ERR_SUCCESS then (ERR_SUCCESS, [Action.sendHeartbeat])
    else if res = ERR_AUTH_FAILED then (ERR_AUTH_FAILED, [Action.sendHeartbeat])
    else if fuel = 0 then (ERR_NETWORK_UNREACHABLE, [Action.sendHeartbeat])
    else
      let rest := hb_retry_go base maxJitterMs outcomes rnd (attempt + 1) fuel
      (rest.1, Action.sendHeartbeat
                 :: backoff_actions base maxJitterMs (rnd attempt) attempt
                 ++ rest.2)

/-- `heartbeat_send_with_retry` (job_processor.c lines 452-495): up to
`retry_attempts` attempts starting at attempt 1; the jitter bound is
`max_jitter_seconds * 1000` milliseconds. -/
def heartbeat_send_with_retry (cfg : AgentConfig) (outcomes rnd : Nat → Nat) :
    Nat × List Action :=
  hb_retry_go cfg.retry_delay_seconds (cfg.max_jitter_seconds * 1000)
    outcomes rnd 1 cfg.retry_attempts.toNat

/-- Number of heartbeat attempts recorded in a trace. -/
def sendCount (acts : List Action) : Nat :=
  (acts.filter fun a => a = Action.sendHeartbeat).length

/-- Total seconds slept in a trace. -/
def sleepTotal : List Action → Int
  | [] => 0
  | Action.sleep s :: rest => s + sleepTotal rest
  | _ :: rest => sleepTotal rest

/-- A fully populated, valid configuration, used to instantiate theorems at
concrete inputs. -/
def sampleConfig : AgentConfig :=
  { agent_id := some "a1"
    hostname := some "host1"
    controller_url := some "https://c.example"
    auth_token := some "tok"
    heartbeat_interval_seconds := 600
    retry_attempts := 5
    retry_delay_seconds := 60
    max_jitter_seconds := 30
    log_level := "info" }

/-- A sample agent context over `sampleConfig`, for concrete instantiation. -/
def sampleCtx : AgentCtx := ⟨sampleConfig, .registering, false⟩

/-- A heartbeat response denying authorization. -/
def hbUnauthorized : HeartbeatResponse := ⟨true, false, 600, false⟩

/-- An authorized heartbeat response announcing a configuration update. -/
def hbConfigUpdated : HeartbeatResponse := ⟨true, true, 600, true⟩

/-- A loop environment: unauthorized heartbeat, empty jobs body. -/
def envUnauthorized : LoopEnv := ⟨.ok hbUnauthorized, .ok 200 "\"jobs\":[]"⟩

/-- A loop environment: authorized heartbeat flagging a config update. -/
def envConfigUpdated : LoopEnv := ⟨.ok hbConfigUpdated, .ok 200 "\"jobs\":[]"⟩

/-! ## Theorems -/

/-- `config_validate` rejects any configuration whose `controller_url` or
`auth_token` is NULL or empty. -/
theorem config_validate_invalid_of_missing (cfg : AgentConfig)
    (h : cfg.controller_url = none ∨ cfg.controller_url = some ""
       ∨ cfg.auth_token = none ∨ cfg.auth_token = some "") :
    config_validate cfg = ERR_CONFIG_INVALID := by
  unfold config_validate
  split_ifs with h1 h2 <;> simp_all

/-- `config_validate` rejects any configuration whose heartbeat interval is
below 60 (every failing branch returns the same code). -/
theorem config_validate_invalid_of_interval (cfg : AgentConfig)
    (h : cfg.heartbeat_interval_seconds < 60) :
    config_validate cfg = ERR_CONFIG_INVALID := by
  unfold config_validate
  split_ifs with h1 h2 <;> rfl

/-- When validation fails, `config_load` surfaces the validation error and
produces no configuration. -/
theorem config_load_error_of_invalid (lines : List (List Char))
    (h : config_validate (config_parse lines) = ERR_CONFIG_INVALID) :
    config_load lines = .error ERR_CONFIG_INVALID := by
  have hrw : config_load lines
      = if config_validate (config_parse lines) ≠ ERR_SUCCESS
        then .error (config_validate (config_parse lines))
        else .ok (config_parse lines) := rfl
  rw [hrw, h]
  simp [ERR_CONFIG_INVALID, ERR_SUCCESS]

/-- C1: a configuration file whose `[controller]` section leaves `url` or
`auth_token` unset or empty makes `config_load` fail with
`ERR_CONFIG_INVALID` and produce no configuration object; the parser's
initial state substitutes no default for either required key (both start out
NULL). -/
theorem config_load_requires_controller_fields (lines : List (List Char))
    (h : (config_parse lines).controller_url = none
       ∨ (config_parse lines).controller_url = some ""
       ∨ (config_parse lines).auth_token = none
       ∨ (config_parse lines).auth_token = some "") :
    config_load lines = .error ERR_CONFIG_INVALID
    ∧ defaultConfig.controller_url = none
    ∧ defaultConfig.auth_token = none := by
  refine ⟨config_load_error_of_invalid lines ?_, rfl, rfl⟩
  exact config_validate_invalid_of_missing _ h

/-- Witness for C1: a file whose `[controller]` section has a `url` but no
`auth_token` is rejected with `ERR_CONFIG_INVALID`. -/
theorem config_load_requires_controller_fields_witness :
    config_load (["[controller]", "url = https://c.example"].map
      String.toList) = .error ERR_CONFIG_INVALID :=
  (config_load_requires_controller_fields _ (by decide)).1

/-- Counterexample to C2: a file that contains the unrecognized key `bogus`
(in the `[controller]` section) is loaded successfully — the unknown key is
silently ignored, not rejected. -/
theorem config_load_accepts_unknown_key :
    config_load (["[controller]", "url = https://c.example",
                  "auth_token = tok", "bogus = 1"].map String.toList)
      = .ok { agent_id := none
              hostname := none
              controller_url := some "https://c.example"
              auth_token := some "tok"
              heartbeat_interval_seconds := 600
              retry_attempts := 5
              retry_delay_seconds := 60
              max_jitter_seconds := 30
              log_level := "info" } := by
  rfl

/-- C2 (amended): a `key = value` line whose (section, key) pair is not in the
recognized option set falls through every branch of the dispatch and leaves
the configuration unchanged — unknown keys are silently ignored, never
rejected. -/
theorem config_unknown_key_ignored (sec key value : String) (cfg : AgentConfig)
    (h : ¬ (sec = "agent" ∧ (key = "agent_id" ∨ key = "hostname"))
       ∧ ¬ (sec = "controller" ∧ (key = "url" ∨ key = "auth_token"))
       ∧ ¬ (sec = "heartbeat" ∧ key = "interval_in_seconds")
       ∧ ¬ (sec = "retry" ∧ (key = "attempts" ∨ key = "delay_in_seconds"
              ∨ key = "max_jitter_in_seconds"))
       ∧ ¬ (sec = "logging" ∧ key = "level")) :
    config_apply_kv sec key value cfg = cfg := by
  obtain ⟨h1, h2, h3, h4, h5⟩ := h
  unfold config_apply_kv
  split_ifs <;> simp_all

/-- Witness for the amended C2: the unknown key `bogus` under `[controller]`
leaves the configuration untouched. -/
theorem config_unknown_key_ignored_witness :
    config_apply_kv "controller" "bogus" "1" defaultConfig = defaultConfig :=
  config_unknown_key_ignored "controller" "bogus" "1" defaultConfig
    (by decide)

/-- C7: a heartbeat interval below 60 seconds makes `config_validate` (and
hence `config_load`) fail with the validation error `ERR_CONFIG_INVALID`,
while an interval of at least 60 passes the interval check (the configuration
validates once the required controller fields are present). -/
theorem config_validate_heartbeat_interval (cfg : AgentConfig) :
    (cfg.heartbeat_interval_seconds < 60 →
       config_validate cfg = ERR_CONFIG_INVALID)
    ∧ (cfg.controller_url ≠ none → cfg.controller_url ≠ some "" →
       cfg.auth_token ≠ none → cfg.auth_token ≠ some "" →
       60 ≤ cfg.heartbeat_interval_seconds →
       config_validate cfg = ERR_SUCCESS)
    ∧ (∀ lines : List (List Char),
        (config_parse lines).heartbeat_interval_seconds < 60 →
        config_load lines = .error ERR_CONFIG_INVALID) := by
  refine ⟨fun h => config_validate_invalid_of_interval cfg h, ?_, ?_⟩
  · intro hu1 hu2 ht1 ht2 hint
    unfold config_validate
    split_ifs with h1 h2 h3 <;> first | rfl | omega | simp_all
  · intro lines h
    exact config_load_error_of_invalid lines
      (config_validate_invalid_of_interval _ h)

/-- Witness for C7: a configuration with interval 59 is rejected; the same
configuration with interval 600 validates. -/
theorem config_validate_heartbeat_interval_witness :
    config_validate { sampleConfig with heartbeat_interval_seconds := 59 }
      = ERR_CONFIG_INVALID
    ∧ config_validate sampleConfig = ERR_SUCCESS :=
  ⟨(config_validate_heartbeat_interval _).1 (by decide),
   (config_validate_heartbeat_interval sampleConfig).2.1 (by decide)
     (by decide) (by decide) (by decide) (by decide)⟩

/-- C8: every scan result built by `create_scan_result` carries a threat label
derived from the severity alone — `"High"` when severity ≥ 7.0, `"Medium"`
when 4.0 ≤ severity < 7.0, `"Low"` otherwise — and that label lies in the
enumerated set of threat levels. -/
theorem create_scan_result_threat (oid name : String) (severity : ℚ)
    (host port description : String) :
    (create_scan_result oid name severity host port description).threat
      = (if 7 ≤ severity then "High"
         else if 4 ≤ severity then "Medium"
         else "Low")
    ∧ (create_scan_result oid name severity host port description).threat
        ∈ (["Log", "Low", "Medium", "High", "Critical"] : List String) := by
  refine ⟨rfl, ?_⟩
  unfold create_scan_result
  dsimp only
  split_ifs <;> simp

/-- The `getifaddrs` loop collects at most `room` addresses. -/
theorem collect_ips_go_length (e : List (Option String)) :
    ∀ room, (collect_ips_go e room).length ≤ room := by
  induction e with
  | nil => intro room; cases room <;> simp [collect_ips_go]
  | cons hd tl ih =>
    intro room
    cases room with
    | zero => simp [collect_ips_go]
    | succ r =>
      cases hd with
      | none => simpa [collect_ips_go] using ih (r + 1)
      | some ip =>
        by_cases hip : ip = "127.0.0.1"
        · simpa [collect_ips_go, hip] using ih (r + 1)
        · simpa [collect_ips_go, hip] using ih r

/-- The `getifaddrs` loop never collects the loopback address. -/
theorem collect_ips_go_no_loopback (e : List (Option String)) :
    ∀ room, "127.0.0.1" ∉ collect_ips_go e room := by
  induction e with
  | nil => intro room; cases room <;> simp [collect_ips_go]
  | cons hd tl ih =>
    intro room
    cases room with
    | zero => simp [collect_ips_go]
    | succ r =>
      cases hd with
      | none => simpa [collect_ips_go] using ih (r + 1)
      | some ip =>
        by_cases hip : ip = "127.0.0.1"
        · simpa [collect_ips_go, hip] using ih (r + 1)
        · simp only [collect_ips_go, hip, if_false, List.mem_cons]
          rintro (h | h)
          · exact hip h.symm
          · exact ih r h

/-- C10: the IP list built by `agent_get_system_info` always has between 1 and
16 entries, and `127.0.0.1` is excluded from the collected interface
addresses — it can only occur as the sole fallback entry when no other IPv4
address was found. -/
theorem agent_collect_ips_bounds (entries : List (Option String)) :
    1 ≤ (agent_collect_ips entries).length
    ∧ (agent_collect_ips entries).length ≤ 16
    ∧ (agent_collect_ips entries = ["127.0.0.1"]
       ∨ "127.0.0.1" ∉ agent_collect_ips entries) := by
  unfold agent_collect_ips
  by_cases h : collect_ips_go entries 16 = []
  · simp [h]
  · simp only [h, if_false]
    refine ⟨?_, collect_ips_go_length entries 16, Or.inr ?_⟩
    · exact List.length_pos.mpr h
    · exact collect_ips_go_no_loopback entries 16

/-- Any successful `job_poll` yields the empty job list with a NULL `jobs`
pointer. -/
theorem job_poll_ok_eq (res : CurlResult) (jl : JobList)
    (h : job_poll res = .ok jl) : jl = { job_count := 0, jobs := none } := by
  cases res with
  | failure => exact absurd h (by simp [job_poll])
  | ok status body =>
    simp only [job_poll] at h
    split_ifs at h <;> simpa using h.symm

/-- Every action in `process_jobs` is an execution or a submission. -/
theorem mem_process_jobs (a : Action) (jobs : List String)
    (h : a ∈ process_jobs jobs) :
    ∃ j ∈ jobs, a = Action.executeJob j ∨ a = Action.submitResults j := by
  unfold process_jobs at h
  simp only [List.mem_flatMap, List.mem_cons, List.not_mem_nil, or_false] at h
  obtain ⟨j, hj, h⟩ := h
  exact ⟨j, hj, h⟩

/-- C9 (implicit): every `ERR_SUCCESS` return of `job_poll` carries
`job_count = 0` and a NULL `jobs` array, whatever the HTTP body was; hence the
job-execution branch of `agent_run`'s loop is dead — no iteration ever
executes a job or submits results. -/
theorem job_poll_always_empty (res : CurlResult) (jl : JobList)
    (h : job_poll res = .ok jl) :
    jl.job_count = 0 ∧ jl.jobs = none
    ∧ ∀ (ctx : AgentCtx) (env : LoopEnv) (jid : String),
        Action.executeJob jid ∉ (agent_run_iteration ctx env).2
        ∧ Action.submitResults jid ∉ (agent_run_iteration ctx env).2 := by
  have hjl := job_poll_ok_eq res jl h
  subst hjl
  refine ⟨rfl, rfl, fun ctx env jid => ?_⟩
  unfold agent_run_iteration
  cases hhb : env.hb with
  | error e => simp
  | ok r =>
    dsimp only
    by_cases hauth : r.authorized
    · simp only [hauth]
      cases hjp : job_poll env.jobCurl with
      | error e => simp
      | ok jobs =>
        have := job_poll_ok_eq _ _ hjp
        subst this
        simp
    · simp [hauth]

/-- Witness for C9: polling against a 200 response with an empty jobs array
returns the empty job list. -/
theorem job_poll_always_empty_witness :
    job_poll (CurlResult.ok 200 "\"jobs\":[]")
      = .ok { job_count := 0, jobs := none }
    ∧ ({ job_count := 0, jobs := none } : JobList).job_count = 0 :=
  ⟨by rfl, (job_poll_always_empty (CurlResult.ok 200 "\"jobs\":[]")
      { job_count := 0, jobs := none } (by rfl)).1⟩

/-- C4: in any iteration of `agent_run`'s loop whose heartbeat succeeds with
`authorized = false`, the agent does not poll for jobs: the iteration's trace
is exactly one heartbeat followed by a sleep of the heartbeat interval, and
the agent moves to the UNAUTHORIZED state. -/
theorem agent_unauthorized_never_polls (ctx : AgentCtx) (env : LoopEnv)
    (r : HeartbeatResponse) (hhb : env.hb = .ok r)
    (hauth : r.authorized = false) :
    (agent_run_iteration ctx env).2
      = [Action.sendHeartbeat,
         Action.sleep ctx.config.heartbeat_interval_seconds]
    ∧ Action.pollJobs ∉ (agent_run_iteration ctx env).2
    ∧ (agent_run_iteration ctx env).1.state = AgentState.unauthorized := by
  unfold agent_run_iteration
  rw [hhb]
  simp [hauth]

/-- Witness for C4: a concrete unauthorized heartbeat response leads to a
poll-free iteration. -/
theorem agent_unauthorized_never_polls_witness :
    Action.pollJobs ∉ (agent_run_iteration sampleCtx envUnauthorized).2 :=
  (agent_unauthorized_never_polls sampleCtx envUnauthorized hbUnauthorized
    rfl rfl).2.1

/-- Counterexample to C3: a heartbeat response with `config_updated = true`
(and the agent authorized) does not make the agent fetch the updated
configuration — the iteration's trace contains no
`GET /api/v1/agents/config` request. -/
theorem agent_ignores_config_updated :
    hbConfigUpdated.config_updated = true
    ∧ envConfigUpdated.hb = .ok hbConfigUpdated
    ∧ Action.fetchConfig ∉
        (agent_run_iteration sampleCtx envConfigUpdated).2 := by
  refine ⟨rfl, rfl, ?_⟩
  decide

/-- C3 (amended): `heartbeat_send` parses `config_updated` into the response,
but `agent_run` never acts on it — no iteration of the main loop issues a
configuration fetch, and the agent's configuration is left unchanged; no
configuration update is ever pulled or applied. -/
theorem agent_never_fetches_config (ctx : AgentCtx) (env : LoopEnv) :
    Action.fetchConfig ∉ (agent_run_iteration ctx env).2
    ∧ (agent_run_iteration ctx env).1.config = ctx.config := by
  unfold agent_run_iteration
  cases hhb : env.hb with
  | error e => simp
  | ok r =>
    dsimp only
    by_cases hauth : r.authorized
    · simp only [hauth]
      cases hjp : job_poll env.jobCurl with
      | error e => simp
      | ok jobs =>
        have := job_poll_ok_eq _ _ hjp
        subst this
        simp
    · simp [hauth]

/-- Counterexample to C5: executing a job submits its results but never
finalizes it — the per-job trace for a concrete job contains the result
submission and no `POST /api/v1/agents/jobs/{id}/complete` request. -/
theorem job_never_finalized :
    Action.submitResults "job-1" ∈ process_jobs ["job-1"]
    ∧ Action.finalizeJob "job-1" ∉ process_jobs ["job-1"] := by
  constructor <;> decide

/-- C5 (amended): the agent never finalizes a job: neither the per-job
processing path nor any iteration of the main loop ever issues a
`POST /api/v1/agents/jobs/{id}/complete` request — job processing ends with
the result submission. -/
theorem agent_never_finalizes (jobs : List String) (jid : String)
    (ctx : AgentCtx) (env : LoopEnv) :
    Action.finalizeJob jid ∉ process_jobs jobs
    ∧ Action.finalizeJob jid ∉ (agent_run_iteration ctx env).2 := by
  constructor
  · intro h
    obtain ⟨j, _, hj | hj⟩ := mem_process_jobs _ _ h <;> cases hj
  · unfold agent_run_iteration
    cases hhb : env.hb with
    | error e => simp
    | ok r =>
      dsimp only
      by_cases hauth : r.authorized
      · simp only [hauth]
        cases hjp : job_poll env.jobCurl with
        | error e => simp
        | ok jbs =>
          have := job_poll_ok_eq _ _ hjp
          subst this
          simp
      · simp [hauth]

/-- The jitter value is never negative. -/
theorem jitter_ms_of_nonneg (m : Int) (r : Nat) : 0 ≤ jitter_ms_of m r := by
  unfold jitter_ms_of
  split_ifs with h
  · exact le_refl 0
  · exact Int.emod_nonneg _ (by omega)

/-- `sendCount` distributes over append. -/
theorem sendCount_append (l1 l2 : List Action) :
    sendCount (l1 ++ l2) = sendCount l1 + sendCount l2 := by
  simp [sendCount, List.filter_append]

/-- The backoff sleeps contain no heartbeat attempt. -/
theorem sendCount_backoff (base mj : Int) (r a : Nat) :
    sendCount (backoff_actions base mj r a) = 0 := by
  unfold backoff_actions
  dsimp only
  split_ifs <;> simp [sendCount]

/-- One heartbeat attempt at the head of a trace. -/
theorem sendCount_cons_send (l : List Action) :
    sendCount (Action.sendHeartbeat :: l) = sendCount l + 1 := by
  simp [sendCount, List.filter]

/-- The retry loop performs at most `fuel` heartbeat attempts. -/
theorem hb_retry_send_le (base mj : Int) (o r : Nat → Nat) :
    ∀ fuel attempt, sendCount (hb_retry_go base mj o r attempt fuel).2 ≤ fuel := by
  intro fuel
  induction fuel with
  | zero => intro a; simp [hb_retry_go, sendCount]
  | succ f ih =>
    intro a
    unfold hb_retry_go
    dsimp only
    split_ifs with h1 h2 h3
    · simp [sendCount]
    · simp [sendCount]
    · simp [sendCount]
    · have hrest := ih (a + 1)
      rw [sendCount_append, sendCount_cons_send, sendCount_backoff]
      omega

/-- C6: `heartbeat_send_with_retry` makes at most `retry.attempts` attempts;
an attempt failing with `ERR_AUTH_FAILED` ends the loop at once (one send, no
sleeps, the error returned); a transient failure with attempts remaining
performs the attempt, then the exponential backoff before retrying; and the
backoff before a retry sleeps `retry.delay_in_seconds * 2^(attempt-1)`
seconds plus a jitter of at most `retry.max_jitter_in_seconds` seconds. -/
theorem heartbeat_retry_backoff (cfg : AgentConfig) (outcomes rnd : Nat → Nat)
    (attempt fuel : Nat) (hJ : 0 ≤ cfg.max_jitter_seconds) :
    sendCount (heartbeat_send_with_retry cfg outcomes rnd).2
        ≤ cfg.retry_attempts.toNat
    ∧ (outcomes attempt = ERR_AUTH_FAILED →
        hb_retry_go cfg.retry_delay_seconds (cfg.max_jitter_seconds * 1000)
            outcomes rnd attempt (fuel + 1)
          = (ERR_AUTH_FAILED, [Action.sendHeartbeat]))
    ∧ (outcomes attempt ≠ ERR_SUCCESS → outcomes attempt ≠ ERR_AUTH_FAILED →
        hb_retry_go cfg.retry_delay_seconds (cfg.max_jitter_seconds * 1000)
            outcomes rnd attempt (fuel + 2)
          = ((hb_retry_go cfg.retry_delay_seconds
                (cfg.max_jitter_seconds * 1000) outcomes rnd
                (attempt + 1) (fuel + 1)).1,
             Action.sendHeartbeat
               :: backoff_actions cfg.retry_delay_seconds
                    (cfg.max_jitter_seconds * 1000) (rnd attempt) attempt
               ++ (hb_retry_go cfg.retry_delay_seconds
                    (cfg.max_jitter_seconds * 1000) outcomes rnd
                    (attempt + 1) (fuel + 1)).2))
    ∧ (∃ j : Int, 0 ≤ j ∧ j ≤ cfg.max_jitter_seconds ∧
        sleepTotal (backoff_actions cfg.retry_delay_seconds
            (cfg.max_jitter_seconds * 1000) (rnd attempt) attempt)
          = cfg.retry_delay_seconds * 2 ^ (attempt - 1) + j) := by
  refine ⟨?_, ?_, ?_, ?_⟩
  · simpa [heartbeat_send_with_retry] using
      hb_retry_send_le cfg.retry_delay_seconds (cfg.max_jitter_seconds * 1000)
        outcomes rnd cfg.retry_attempts.toNat 1
  · intro h
    unfold hb_retry_go
    dsimp only
    rw [h]
    norm_num [ERR_AUTH_FAILED, ERR_SUCCESS]
  · intro h1 h2
    conv_lhs => rw [hb_retry_go]
    dsimp only
    rw [if_neg h1, if_neg h2, if_neg (Nat.succ_ne_zero fuel)]
  · have hnn : 0 ≤ jitter_ms_of (cfg.max_jitter_seconds * 1000) (rnd attempt) :=
      jitter_ms_of_nonneg _ _
    by_cases hpos : 0 < jitter_ms_of (cfg.max_jitter_seconds * 1000) (rnd attempt)
    · refine ⟨jitter_ms_of (cfg.max_jitter_seconds * 1000) (rnd attempt) / 1000,
        by omega, ?_, ?_⟩
      · have hmj : ¬ (cfg.max_jitter_seconds * 1000 ≤ 0) := by
          intro hle
          rw [jitter_ms_of, if_pos hle] at hpos
          exact absurd hpos (by omega)
        have hlt : jitter_ms_of (cfg.max_jitter_seconds * 1000) (rnd attempt)
            < cfg.max_jitter_seconds * 1000 := by
          rw [jitter_ms_of, if_neg hmj]
          exact Int.emod_lt_of_pos _ (by omega)
        omega
      · unfold backoff_actions
        dsimp only
        rw [if_pos hpos]
        simp [sleepTotal]
    · have hz : jitter_ms_of (cfg.max_jitter_seconds * 1000) (rnd attempt) = 0 := by
        omega
      refine ⟨0, le_refl 0, hJ, ?_⟩
      unfold backoff_actions
      dsimp only
      rw [if_neg hpos]
      simp [sleepTotal]

/-- Witness for C6: with the sample configuration and a permanently transient
environment, at most five heartbeat attempts are made. -/
theorem heartbeat_retry_backoff_witness :
    0 ≤ sampleConfig.max_jitter_seconds
    ∧ sendCount (heartbeat_send_with_retry sampleConfig
        (fun _ => ERR_NETWORK_UNREACHABLE) (fun _ => 500)).2
      ≤ sampleConfig.retry_attempts.toNat :=
  ⟨by decide,
   (heartbeat_retry_backoff sampleConfig (fun _ => ERR_NETWORK_UNREACHABLE)
     (fun _ => 500) 1 1 (by decide)).1⟩

end GvmAgent
